import Mathlib

/-
Shallow embedding of the per-guild playback scheduler of src/Bot.py
(a Discord music bot). The per-guild mutable dictionaries
(queues, is_playing, current_audio, current_start, current_duration)
are modelled as one record, and each handler becomes a pure function
from that record (plus the ambient environment: which files exist on
disk, whether a live voice client is attached, the event-loop clock,
the duration prober) to the updated record together with the snapshot
it persists and the list of stream-start attempts it makes. The
per-guild asyncio lock serializes all handlers for one guild, so an
interleaving of operations is modelled as their sequential composition.
-/

namespace MusicBot

/-- Per-guild playback record: mirrors the dictionaries `queues`,
`is_playing`, `current_audio`, `current_start` and `current_duration`
of src/Bot.py (all keyed by guild id), gathered into one structure.
Times are modelled as integers. -/
structure GuildState where
  queue : List String
  is_playing : Bool
  current_audio : Option String
  current_start : Option Int
  current_duration : Int
deriving DecidableEq

/-- The idle defaults installed by `ensure_guild_state`. -/
def initState : GuildState :=
  ⟨[], false, none, none, 0⟩

/-- The voice descriptor `save_queue_for_guild` stores: guild id and
voice channel id. -/
structure VoiceInfo where
  guild_id : Int
  channel_id : Int
deriving DecidableEq

/-- The persisted per-guild snapshot written by `save_queue_for_guild`:
the queue, optionally the voice channel, optionally the current track. -/
structure Snapshot where
  queue : List String
  voice : Option VoiceInfo
  current_audio : Option String
deriving DecidableEq

/-- Python truthiness of an optional string, as used by the guard
`if current_audio.get(guild_id):` — `None` and the empty string are
both falsy. -/
def pyTruthy (o : Option String) : Option String :=
  match o with
  | some s => if s = "" then none else some s
  | none => none

/-- The ambient environment of one handler invocation:
`ex f` models `os.path.exists(os.path.join(AUDIO_DIR, f))`,
`conn` models a voice client being attached and connected,
`now` models `asyncio.get_event_loop().time()`,
`dur f` models `probe_duration` on the track file `f`,
`gid` and `chan` are the guild and voice channel ids. -/
structure Env where
  ex : String → Bool
  conn : Bool
  now : Int
  dur : String → Int
  gid : Int
  chan : Int

/-- Embedding of `save_queue_for_guild`: records the queue, the voice
channel when a voice client is attached, and the current track when it
is truthy. -/
def save_queue_for_guild (conn : Bool) (gid chan : Int) (s : GuildState) : Snapshot :=
  { queue := s.queue
    voice := if conn then some ⟨gid, chan⟩ else none
    current_audio := pyTruthy s.current_audio }

/-- The fully idle record with the given queue: `is_playing = False`,
`current_audio = None`, `current_start = None`, `current_duration = 0`,
as written by the empty-queue and no-connection exits of `play_next`. -/
def idleFrom (q : List String) : GuildState :=
  ⟨q, false, none, none, 0⟩

/-- Result of one `play_next` invocation: `done` when the call
returns, carrying the final record, the last snapshot written and the
tracks for which a stream start (`voice_client.play`) was requested;
`hung` when the call never returns — the missing-file branch at
src/Bot.py line 181 re-awaits `play_next` while the per-guild
`asyncio.Lock` acquired at line 164 is still held, and that lock is
not reentrant, so the inner acquisition blocks forever. `hung` carries
the shared-dictionary state at the blocking point (the popped missing
track left as `current_audio`, the rest of the queue in place, the
other fields untouched) and the pop-time snapshot of line 176, which
was the last one persisted; both stay visible to readers forever,
while no further operation on this guild can acquire the lock. -/
inductive AdvanceResult where
  | done (s : GuildState) (snap : Snapshot) (started : List String)
  | hung (s : GuildState) (snap : Snapshot)
deriving DecidableEq

/-- Embedding of `play_next` (src/Bot.py lines 161-199), branch by
branch in source order: empty queue → settle the fully idle record,
persist, return; otherwise pop the front into `current_audio` and
persist; missing file → the attempted skip re-awaits `play_next`
under the held non-reentrant lock and never completes (`hung`); no
connected voice client → reinsert the popped track at the front,
settle idle, persist, return; otherwise probe the duration, stamp the
start time, mark playing and start the stream. -/
def play_next_run (e : Env) (s : GuildState) : AdvanceResult :=
  match s.queue with
  | [] =>
    .done (idleFrom []) (save_queue_for_guild e.conn e.gid e.chan (idleFrom [])) []
  | t :: rest =>
    let s1 : GuildState := { s with queue := rest, current_audio := some t }
    let snap1 := save_queue_for_guild e.conn e.gid e.chan s1
    if e.ex t = false then
      .hung s1 snap1
    else if e.conn = false then
      .done (idleFrom (t :: rest))
        (save_queue_for_guild e.conn e.gid e.chan (idleFrom (t :: rest))) []
    else
      .done ⟨rest, true, some t, some e.now, e.dur t⟩
        (save_queue_for_guild e.conn e.gid e.chan ⟨rest, true, some t, some e.now, e.dur t⟩)
        [t]

/-- The shared state, last persisted snapshot and stream starts one
`play_next` invocation leaves behind, whether or not it returns (a
hung invocation starts no stream and its blocking-point state and
pop-time snapshot remain the guild's state forever). -/
def play_next (e : Env) (s : GuildState) : GuildState × Snapshot × List String :=
  match play_next_run e s with
  | .done s1 sn st => (s1, sn, st)
  | .hung s1 sn => (s1, sn, [])

/-- Result of the `/play` command handler: the three error replies, or
success carrying the updated record, the last persisted snapshot and
the stream starts. -/
inductive PlayOutcome where
  | fileNotFound
  | notInVoice
  | connectFailed
  | ok (s : GuildState) (snap : Snapshot) (started : List String)
deriving DecidableEq

/-- Embedding of the `/play` command (src/Bot.py lines 404-430):
reject when the named file does not exist on disk; reject when the
caller is not in a voice channel; connect when not yet connected
(reject if that fails); append the name to the queue and persist; when
nothing is playing, invoke `play_next`. `uv` models the caller being in
a voice channel, `cok` models `channel.connect()` succeeding. -/
def play (e : Env) (uv cok : Bool) (nom : String) (s : GuildState) : PlayOutcome :=
  if e.ex nom = false then .fileNotFound
  else if uv = false then .notInVoice
  else if e.conn = false ∧ cok = false then .connectFailed
  else
    let eConnected : Env := { e with conn := true }
    let s1 : GuildState := { s with queue := s.queue ++ [nom] }
    let snap1 := save_queue_for_guild eConnected.conn eConnected.gid eConnected.chan s1
    if s1.is_playing = false then
      let r := play_next eConnected s1
      .ok r.1 r.2.1 r.2.2
    else .ok s1 snap1 []

/-- Status of the transport (the discord voice client's player):
`is_playing()` is true exactly in `playing`, `is_paused()` exactly in
`paused`. -/
inductive TStatus where
  | idle
  | playing
  | paused
deriving DecidableEq

/-- Transport predicate `voice_client and voice_client.is_playing()`
(`none` models no voice client attached). -/
def vcIsPlaying : Option TStatus → Bool
  | some TStatus.playing => true
  | _ => false

/-- Transport predicate `voice_client and (is_playing() or is_paused())`. -/
def vcActive : Option TStatus → Bool
  | some TStatus.playing => true
  | some TStatus.paused => true
  | _ => false

/-- Embedding of the `/stop` command (src/Bot.py lines 518-531): clear
the queue, signal the transport to stop when it is playing or paused,
set `is_playing := False`, persist. Note the handler touches neither
`current_audio` nor `current_start` nor `current_duration`. Returns the
record, the persisted snapshot, and whether transport stop was
signalled. -/
def stop (e : Env) (vc : Option TStatus) (s : GuildState) : GuildState × Snapshot × Bool :=
  let s1 : GuildState := { s with queue := [], is_playing := false }
  (s1, save_queue_for_guild e.conn e.gid e.chan s1, vcActive vc)

/-- Embedding of the `/pause` command (src/Bot.py lines 474-484): when
the transport is actively playing, pause it and report success;
otherwise report failure. No per-guild record field is read or
written, so the record is returned unchanged. -/
def pause (vc : Option TStatus) (s : GuildState) : GuildState × Option TStatus × Bool :=
  match vc with
  | some TStatus.playing => (s, some TStatus.paused, true)
  | _ => (s, vc, false)

/-- Embedding of the `/resume` command (src/Bot.py lines 487-497): when
the transport is paused, resume it and report success; otherwise report
failure. The per-guild record is untouched. -/
def resume (vc : Option TStatus) (s : GuildState) : GuildState × Option TStatus × Bool :=
  match vc with
  | some TStatus.paused => (s, some TStatus.playing, true)
  | _ => (s, vc, false)

/-- Elapsed playback time as computed by the progress code:
`loop.time() - (current_start.get(gid) or 0)`. -/
def elapsed (now : Int) (s : GuildState) : Int :=
  now - s.current_start.getD 0

/-- Observable effect of the `/skip` command: whether transport stop
was signalled, whether a skip (rather than nothing-to-skip) was
reported, and the record, snapshot and stream starts after the
triggered advance (if any) has run. -/
structure SkipEffect where
  stopSignaled : Bool
  skippedReply : Bool
  state : GuildState
  snap : Option Snapshot
  started : List String
deriving DecidableEq

/-- Embedding of the `/skip` command (src/Bot.py lines 500-515): when
the transport reports actively playing, signal transport stop — which
fires the completion callback, whose `play_next` is folded in here as
the per-guild lock runs it next. Otherwise, when the queue is
non-empty, call `play_next` directly; when it is empty, reply that
there is nothing to skip. -/
def skip (e : Env) (vc : Option TStatus) (s : GuildState) : SkipEffect :=
  if vcIsPlaying vc = true then
    let r := play_next e s
    ⟨true, true, r.1, some r.2.1, r.2.2⟩
  else if s.queue.isEmpty then ⟨false, false, s, none, []⟩
  else
    let r := play_next e s
    ⟨false, true, r.1, some r.2.1, r.2.2⟩

/-- One enqueue step as a state transformer: the `/play` handler's
state effect (error replies leave the record unchanged). -/
def enqueueSt (e : Env) (uv cok : Bool) (t : String) (s : GuildState) : GuildState :=
  match play e uv cok t s with
  | .ok s1 _ _ => s1
  | _ => s

/-- One advance (or completion-callback) step as a state transformer. -/
def advanceSt (e : Env) (s : GuildState) : GuildState :=
  (play_next e s).1

/-- States reachable from the idle defaults by any sequence of enqueue
and advance/completion steps, each under its own environment. -/
inductive Reach : GuildState → Prop where
  | init : Reach initState
  | enq (e : Env) (uv cok : Bool) (t : String) (s : GuildState) :
      Reach s → Reach (enqueueSt e uv cok t s)
  | adv (e : Env) (s : GuildState) :
      Reach s → Reach (advanceSt e s)

/-- Reachability restricted to fresh enqueues: a track name is only
enqueued while it is neither already queued nor the current track. -/
inductive ReachF : GuildState → Prop where
  | init : ReachF initState
  | enq (e : Env) (uv cok : Bool) (t : String) (s : GuildState) :
      ReachF s → t ∉ s.queue → s.current_audio ≠ some t →
      ReachF (enqueueSt e uv cok t s)
  | adv (e : Env) (s : GuildState) :
      ReachF s → ReachF (advanceSt e s)

/-- The queue holds pairwise distinct names and never holds the
current track. -/
abbrev Inv (s : GuildState) : Prop :=
  s.queue.Nodup ∧ ∀ c, s.current_audio = some c → c ∉ s.queue

/-- Modelled from the spec: the repository's files hold no loop
feature (no `loopCurrent` flag and no toggle-loop command appear in
src/Bot.py); the spec describes it as a per-guild boolean consulted by
the completion handler. The guild record is extended by that flag. -/
structure LoopState where
  st : GuildState
  loopCurrent : Bool
deriving DecidableEq

/-- Modelled from the spec: `toggleLoop(guildId)` flips `loopCurrent`
and changes nothing else. -/
def toggleLoop (ls : LoopState) : LoopState :=
  ⟨ls.st, !ls.loopCurrent⟩

/-- Outcome reported by the transport's completion callback. -/
inductive Outcome where
  | finished
  | errored
  | stopped
deriving DecidableEq

/-- Modelled from the spec: `onPlaybackComplete(guildId, outcome)` —
if `loopCurrent` is set and the outcome is `finished`, the just-played
track is re-inserted at the front of the queue, and in all outcomes
`advance` (embedded `play_next`) then runs. -/
def onPlaybackComplete (e : Env) (o : Outcome) (ls : LoopState) :
    LoopState × Snapshot × List String :=
  let s : GuildState :=
    if ls.loopCurrent = true ∧ o = Outcome.finished then
      match ls.st.current_audio with
      | some t => { ls.st with queue := t :: ls.st.queue }
      | none => ls.st
    else ls.st
  let r := play_next e s
  (⟨r.1, ls.loopCurrent⟩, r.2.1, r.2.2)

/-- A file system as a partial map from paths to raw file contents. -/
abbrev FS : Type := String → Option String

/-- Embedding of `save_json`: overwrite the file at `path`. -/
def save_json (fs : FS) (path content : String) : FS :=
  fun p => if p = path then some content else fs p

/-- Embedding of `load_json` (src/Bot.py lines 59-67), generic in the
stored value: when the file is absent, write the default there and
return it; when the file exists, parse it and return the parsed value,
or the default when parsing fails — the parse error is swallowed and
never propagated. `parse` and `ser` stand for `json.load` and
`json.dump` at the stored type. -/
def load_json {α : Type} (parse : String → Option α) (ser : α → String)
    (fs : FS) (path : String) (default : α) : α × FS :=
  match fs path with
  | none => (default, save_json fs path (ser default))
  | some c =>
    match parse c with
    | some v => (v, fs)
    | none => (default, fs)

/-- The per-guild queue file as a JSON object with three optional
keys, as read by `load_queue_for_guild` (`queue`, `voice`,
`current_audio`); the default `{}` has all keys absent. -/
structure QueueData where
  queue : Option (List String)
  voice : Option VoiceInfo
  current_audio : Option String
deriving DecidableEq

/-- The default `{}` passed to `load_json` by `load_queue_for_guild`. -/
def emptyDict : QueueData := ⟨none, none, none⟩

/-- Embedding of `json_path_queue`. -/
def json_path_queue (gid : Int) : String :=
  "data/queue_" ++ toString gid ++ ".json"

/-- Embedding of `load_queue_for_guild` (src/Bot.py lines 220-225):
load the guild's queue file with default `{}` and read out
`data.get("queue", [])`, `data.get("voice")`, `data.get("current_audio")`. -/
def load_queue_for_guild (parse : String → Option QueueData) (ser : QueueData → String)
    (fs : FS) (gid : Int) : (List String × Option VoiceInfo × Option String) × FS :=
  let r := load_json parse ser fs (json_path_queue gid) emptyDict
  ((r.1.queue.getD [], r.1.voice, r.1.current_audio), r.2)

/-- A concrete environment: every file exists, a voice client is
connected, the clock reads 0, every duration probes to 0, guild 1,
channel 10. -/
def envA : Env :=
  ⟨fun _ => true, true, 0, fun _ => 0, 1, 10⟩

/-- A concrete environment in which no file exists on disk. -/
def envMissing : Env :=
  ⟨fun _ => false, true, 0, fun _ => 0, 1, 10⟩

/-- A concrete environment with no connected voice client. -/
def envNoConn : Env :=
  ⟨fun _ => true, false, 0, fun _ => 0, 1, 10⟩

/-- C1: on an idle guild with a live voice connection, enqueueing two
existing tracks a then b makes a the current track with queue [b];
each completion callback advances to the next queued track in FIFO
order (the popped front becomes current); and completion of the last
track leaves the guild idle (`current_audio` absent, `is_playing`
false) with an empty queue. -/
theorem C1_fifo_playback (e : Env) (a b : String)
    (ha : e.ex a = true) (hb : e.ex b = true) (hc : e.conn = true) :
    play e true true a initState =
      PlayOutcome.ok ⟨[], true, some a, some e.now, e.dur a⟩
        ⟨[], some ⟨e.gid, e.chan⟩, pyTruthy (some a)⟩ [a] ∧
    play e true true b ⟨[], true, some a, some e.now, e.dur a⟩ =
      PlayOutcome.ok ⟨[b], true, some a, some e.now, e.dur a⟩
        ⟨[b], some ⟨e.gid, e.chan⟩, pyTruthy (some a)⟩ [] ∧
    play_next e ⟨[b], true, some a, some e.now, e.dur a⟩ =
      (⟨[], true, some b, some e.now, e.dur b⟩,
       ⟨[], some ⟨e.gid, e.chan⟩, pyTruthy (some b)⟩, [b]) ∧
    play_next e ⟨[], true, some b, some e.now, e.dur b⟩ =
      (initState, ⟨[], some ⟨e.gid, e.chan⟩, none⟩, []) ∧
    (∀ (t : String) (rest : List String) (s : GuildState),
      s.queue = t :: rest → e.ex t = true →
      (play_next e s).1 = ⟨rest, true, some t, some e.now, e.dur t⟩) := by
  refine ⟨?_, ?_, ?_, ?_, ?_⟩
  · simp [play, play_next, play_next_run, save_queue_for_guild, initState, ha]
  · simp [play, save_queue_for_guild, hb]
  · simp [play_next, play_next_run, save_queue_for_guild, hb, hc]
  · simp [play_next, play_next_run, save_queue_for_guild, idleFrom, initState, pyTruthy, hc]
  · intro t rest s hq ht
    simp [play_next, hq, play_next_run, ht, hc]

/-- C1 witness: the scenario instantiated at two concrete tracks under
a concrete connected environment. -/
theorem C1_witness :
    play_next envA ⟨["b.mp3"], true, some "a.mp3", some 0, 0⟩ =
      (⟨[], true, some "b.mp3", some 0, 0⟩,
       ⟨[], some ⟨1, 10⟩, pyTruthy (some "b.mp3")⟩, ["b.mp3"]) :=
  (C1_fifo_playback envA "a.mp3" "b.mp3" rfl rfl rfl).2.2.1

/-- C2: after `stop` has cleared the queue, an in-flight completion
callback whose `play_next` runs next (the per-guild lock sequences it
after `stop`) observes the empty queue and settles into the fully idle
record: nothing is replayed (no stream start), the queue stays empty,
and the final snapshot records no current track. -/
theorem C2_stop_then_completion (e : Env) (vc : Option TStatus) (s : GuildState) :
    (stop e vc s).1.queue = [] ∧
    play_next e (stop e vc s).1 =
      (initState,
       ⟨[], if e.conn = true then some ⟨e.gid, e.chan⟩ else none, none⟩, []) := by
  constructor
  · simp [stop]
  · simp [stop, play_next, play_next_run, save_queue_for_guild, idleFrom, initState, pyTruthy]

/-- C3 counterexample: the `/play` handler checks `os.path.exists` at
call time and reports "Fichier introuvable" for a track file that does
not exist, contradicting the claim that enqueue reports no error and
defers all existence checking to advance. -/
theorem C3_counterexample :
    play envMissing true true "missing.mp3" initState = PlayOutcome.fileNotFound := by
  decide

/-- C3 amended: enqueue validates existence at call time and rejects a
missing file without enqueueing it; advance re-checks existence at
dequeue time, but its attempted skip re-awaits `play_next` while still
holding the non-reentrant per-guild lock, so the call never completes:
the guild is left with the missing track as `current_audio` and the
rest of the queue in place, the pop-time snapshot recording the
missing track as current is the last one persisted, no stream-start
attempt is made, and the guild does not settle idle. -/
theorem C3_deferred_check_amended (e : Env) (t : String) (rest : List String)
    (s : GuildState) (ht : e.ex t = false) (hq : s.queue = t :: rest) :
    play e true true t s = PlayOutcome.fileNotFound ∧
    play_next_run e s =
      AdvanceResult.hung { s with queue := rest, current_audio := some t }
        ⟨rest, if e.conn = true then some ⟨e.gid, e.chan⟩ else none, pyTruthy (some t)⟩ ∧
    (play_next e s).2.2 = [] := by
  refine ⟨?_, ?_, ?_⟩
  · simp [play, ht]
  · simp [play_next_run, hq, ht, save_queue_for_guild]
  · simp [play_next, play_next_run, hq, ht]

/-- C3 witness: a concrete missing track is rejected by enqueue, and
advance on a queue holding only it hangs with that track left as
current, its pop-time snapshot persisted, and no stream start. -/
theorem C3_witness :
    play envMissing true true "gone.mp3" ⟨["gone.mp3"], false, none, none, 0⟩ =
      PlayOutcome.fileNotFound ∧
    play_next_run envMissing ⟨["gone.mp3"], false, none, none, 0⟩ =
      AdvanceResult.hung ⟨[], false, some "gone.mp3", none, 0⟩
        ⟨[], some ⟨1, 10⟩, some "gone.mp3"⟩ ∧
    (play_next envMissing ⟨["gone.mp3"], false, none, none, 0⟩).2.2 = [] := by
  simpa using
    C3_deferred_check_amended envMissing "gone.mp3" []
      ⟨["gone.mp3"], false, none, none, 0⟩ rfl rfl

/-- C4: when advance dequeues the front track (whose file exists) and
finds no usable voice connection, the track is re-inserted at the
front of the queue, the current track is cleared, the guild reverts to
the idle record, the snapshot (with the restored queue and no current
track) is persisted, and the call makes no stream-start attempt and
does not retry. -/
theorem C4_no_connection_putback (e : Env) (s : GuildState) (t : String) (rest : List String)
    (hq : s.queue = t :: rest) (ht : e.ex t = true) (hc : e.conn = false) :
    play_next e s = (idleFrom (t :: rest), ⟨t :: rest, none, none⟩, []) := by
  simp [play_next, hq, play_next_run, ht, hc, save_queue_for_guild, idleFrom, pyTruthy]

/-- C4 witness: the no-connection putback at a concrete state. -/
theorem C4_witness :
    play_next envNoConn ⟨["a.mp3", "b.mp3"], true, some "x.mp3", some 3, 9⟩ =
      (idleFrom ["a.mp3", "b.mp3"], ⟨["a.mp3", "b.mp3"], none, none⟩, []) :=
  C4_no_connection_putback envNoConn ⟨["a.mp3", "b.mp3"], true, some "x.mp3", some 3, 9⟩
    "a.mp3" ["b.mp3"] rfl rfl rfl

/-- C5 counterexample: on a playing guild, `stop` leaves
`current_audio` set and the snapshot it persists still records that
current track, contradicting the claim that after `stop` returns the
current track is absent and the snapshot records no current track. -/
theorem C5_counterexample :
    ((stop envA (some TStatus.playing) ⟨["b.mp3"], true, some "a.mp3", some 5, 100⟩).1).current_audio
        = some "a.mp3" ∧
    ((stop envA (some TStatus.playing) ⟨["b.mp3"], true, some "a.mp3", some 5, 100⟩).2.1).current_audio
        = some "a.mp3" := by
  decide

/-- C5 amended: after `stop` returns, the queue is empty and
`is_playing` is false, but `current_audio`, `current_start` and
`current_duration` are untouched, and the snapshot `stop` persists has
an empty queue yet still records the (truthy) current track; the
current track is cleared, and a snapshot with no current track
written, only when the completion callback triggered by the transport
stop subsequently runs `play_next` on the emptied queue. -/
theorem C5_stop_amended (e : Env) (vc : Option TStatus) (s : GuildState) :
    (stop e vc s).1 = { s with queue := [], is_playing := false } ∧
    (stop e vc s).2.1 =
      ⟨[], if e.conn = true then some ⟨e.gid, e.chan⟩ else none, pyTruthy s.current_audio⟩ ∧
    play_next e (stop e vc s).1 =
      (initState,
       ⟨[], if e.conn = true then some ⟨e.gid, e.chan⟩ else none, none⟩, []) := by
  refine ⟨rfl, ?_, ?_⟩
  · simp [stop, save_queue_for_guild]
  · simp [stop, play_next, play_next_run, save_queue_for_guild, idleFrom, initState, pyTruthy]

/-- C6 counterexample: pause at time 20 and resume at time 30 leave the
guild record completely unchanged — no pause timestamp is recorded and
`current_start` stays 10 instead of being shifted to 20 — so elapsed
grows from 10 to 20 across the pause, contradicting the claimed
startedAt shift and elapsed continuity. -/
theorem C6_counterexample :
    (resume (pause (some TStatus.playing) ⟨[], true, some "a.mp3", some 10, 100⟩).2.1
        (pause (some TStatus.playing) ⟨[], true, some "a.mp3", some 10, 100⟩).1).1 =
      ⟨[], true, some "a.mp3", some 10, 100⟩ ∧
    (⟨[], true, some "a.mp3", some 10, 100⟩ : GuildState).current_start = some 10 ∧
    elapsed 20 ⟨[], true, some "a.mp3", some 10, 100⟩ = 10 ∧
    elapsed 30 ⟨[], true, some "a.mp3", some 10, 100⟩ = 20 ∧
    (20 : Int) ≠ 10 := by
  decide

/-- C6 amended: pause succeeds exactly when the transport is actively
playing and resume exactly when it is paused (otherwise the command
reports a failed precondition), but neither touches the guild record:
no pause timestamp is recorded and `current_start` is never shifted,
so elapsed = now − startedAt keeps growing with the clock during a
pause instead of being held constant. -/
theorem C6_pause_resume_amended (vc : Option TStatus) (s : GuildState) (t d : Int) :
    (pause vc s).1 = s ∧
    (resume vc s).1 = s ∧
    ((pause vc s).2.2 = true ↔ vc = some TStatus.playing) ∧
    ((resume vc s).2.2 = true ↔ vc = some TStatus.paused) ∧
    elapsed (t + d) s = elapsed t s + d := by
  refine ⟨?_, ?_, ?_, ?_, ?_⟩
  · rcases vc with _ | st
    · rfl
    · cases st <;> rfl
  · rcases vc with _ | st
    · rfl
    · cases st <;> rfl
  · rcases vc with _ | st
    · simp [pause]
    · cases st <;> simp [pause]
  · rcases vc with _ | st
    · simp [resume]
    · cases st <;> simp [resume]
  · simp only [elapsed]
    omega

/-- C6 witness: the amended statement at the transport state playing,
the idle defaults and concrete times. -/
theorem C6_witness :
    (pause (some TStatus.playing) initState).1 = initState ∧
    (resume (some TStatus.playing) initState).1 = initState ∧
    ((pause (some TStatus.playing) initState).2.2 = true ↔
      some TStatus.playing = some TStatus.playing) ∧
    ((resume (some TStatus.playing) initState).2.2 = true ↔
      some TStatus.playing = some TStatus.paused) ∧
    elapsed (0 + 5) initState = elapsed 0 initState + 5 :=
  C6_pause_resume_amended (some TStatus.playing) initState 0 5

/-- C7 counterexample: with the transport paused and a non-empty
queue, `skip` does not signal transport stop (the handler only checks
`is_playing()`, which is false while paused); it instead calls advance
directly, which starts the next track — contradicting the claim that
skip while paused signals a transport stop and that advance is called
directly only when idle. -/
theorem C7_counterexample :
    (skip envA (some TStatus.paused) ⟨["b.mp3"], true, some "a.mp3", some 0, 50⟩).stopSignaled
        = false ∧
    (skip envA (some TStatus.paused) ⟨["b.mp3"], true, some "a.mp3", some 0, 50⟩).skippedReply
        = true ∧
    (skip envA (some TStatus.paused) ⟨["b.mp3"], true, some "a.mp3", some 0, 50⟩).started
        = ["b.mp3"] := by
  decide

/-- C7 amended: `skip` signals the transport to stop only when the
transport reports actively playing (then the completion with outcome
stopped runs advance); when the transport is not actively playing —
paused or idle — it calls advance directly if the queue is non-empty
(without signalling the paused stream to stop), and reports nothing to
skip if the queue is empty; whenever advance pops an existing front
track under a live connection, that track becomes current with
`is_playing` true (playing, not paused). -/
theorem C7_skip_amended (e : Env) (vc : Option TStatus) (s : GuildState) :
    (vcIsPlaying vc = true →
      skip e vc s =
        ⟨true, true, (play_next e s).1, some (play_next e s).2.1, (play_next e s).2.2⟩) ∧
    (vcIsPlaying vc = false → s.queue ≠ [] →
      skip e vc s =
        ⟨false, true, (play_next e s).1, some (play_next e s).2.1, (play_next e s).2.2⟩) ∧
    (vcIsPlaying vc = false → s.queue = [] →
      skip e vc s = ⟨false, false, s, none, []⟩) ∧
    (∀ (t : String) (rest : List String), s.queue = t :: rest →
      e.ex t = true → e.conn = true →
      (play_next e s).1.is_playing = true ∧ (play_next e s).1.current_audio = some t) := by
  refine ⟨fun h => ?_, fun h hq => ?_, fun h hq => ?_, fun t rest hq ht hcn => ?_⟩
  · simp [skip, h]
  · simp [skip, h, List.isEmpty_iff, hq]
  · simp [skip, h, List.isEmpty_iff, hq]
  · simp [play_next, hq, play_next_run, ht, hcn]

/-- C7 witness: skip while the transport is paused with one queued
track under a connected environment advances directly with no stop
signal. -/
theorem C7_witness :
    skip envA (some TStatus.paused) ⟨["b.mp3"], true, some "a.mp3", some 0, 50⟩ =
      ⟨false, true,
       (play_next envA ⟨["b.mp3"], true, some "a.mp3", some 0, 50⟩).1,
       some (play_next envA ⟨["b.mp3"], true, some "a.mp3", some 0, 50⟩).2.1,
       (play_next envA ⟨["b.mp3"], true, some "a.mp3", some 0, 50⟩).2.2⟩ :=
  (C7_skip_amended envA (some TStatus.paused) ⟨["b.mp3"], true, some "a.mp3", some 0, 50⟩).2.1
    rfl (by decide)

/-- C8 (modelled from the spec, the loop feature being absent from
src/Bot.py): toggleLoop flips the loopCurrent flag; when loopCurrent
is set and a track finishes with outcome finished, the completion
handler re-inserts that exact track at the front of the queue before
advancing, so it is replayed immediately (the queue behind it is
untouched); with the flag off, the completion handler is plain
advance, so toggling the flag again stops the repetition. -/
theorem C8_loop_replay (e : Env) (ls : LoopState) (t : String)
    (hcur : ls.st.current_audio = some t) (hex : e.ex t = true) (hconn : e.conn = true) :
    (toggleLoop ls).loopCurrent = !ls.loopCurrent ∧
    (ls.loopCurrent = true →
      (onPlaybackComplete e Outcome.finished ls).1.st =
        ⟨ls.st.queue, true, some t, some e.now, e.dur t⟩ ∧
      (onPlaybackComplete e Outcome.finished ls).2.2 = [t]) ∧
    (ls.loopCurrent = false →
      onPlaybackComplete e Outcome.finished ls =
        (⟨(play_next e ls.st).1, false⟩, (play_next e ls.st).2.1, (play_next e ls.st).2.2)) := by
  refine ⟨rfl, fun h => ?_, fun h => ?_⟩
  · constructor <;>
      simp [onPlaybackComplete, h, hcur, play_next, play_next_run, hex, hconn]
  · simp [onPlaybackComplete, h]

/-- C8 witness: with loop on, a finished current track is re-popped and
replayed at once, the rest of the queue intact. -/
theorem C8_witness :
    (onPlaybackComplete envA Outcome.finished
        ⟨⟨["q.mp3"], true, some "a.mp3", some 0, 7⟩, true⟩).1.st =
      ⟨["q.mp3"], true, some "a.mp3", some 0, 0⟩ ∧
    (onPlaybackComplete envA Outcome.finished
        ⟨⟨["q.mp3"], true, some "a.mp3", some 0, 7⟩, true⟩).2.2 = ["a.mp3"] := by
  simpa using
    (C8_loop_replay envA ⟨⟨["q.mp3"], true, some "a.mp3", some 0, 7⟩, true⟩ "a.mp3"
      rfl rfl rfl).2.1 rfl

/-- The advance function establishes the queue invariant whenever the
queue it consumes has pairwise distinct entries: the resulting queue is
again duplicate-free and never holds the resulting current track (in
the hung case because the popped front of a duplicate-free queue does
not recur in its tail). -/
lemma play_next_inv (e : Env) (s : GuildState) (hl : s.queue.Nodup) :
    ((play_next e s).1).queue.Nodup ∧
      ∀ c, ((play_next e s).1).current_audio = some c →
        c ∉ ((play_next e s).1).queue := by
  rcases hq : s.queue with _ | ⟨t, rest⟩
  · simp [play_next, play_next_run, hq, idleFrom]
  · rw [hq, List.nodup_cons] at hl
    by_cases hx : e.ex t = false
    · simp [play_next, play_next_run, hq, hx]
      exact ⟨hl.2, hl.1⟩
    · by_cases hcn : e.conn = false
      · simp [play_next, play_next_run, hq, hx, hcn, idleFrom]
        exact hl
      · simp [play_next, play_next_run, hq, hx, hcn]
        exact ⟨hl.2, hl.1⟩

/-- Advance preserves the queue invariant. -/
lemma inv_advanceSt (e : Env) (s : GuildState) (h : Inv s) : Inv (advanceSt e s) :=
  play_next_inv e s h.1

/-- A fresh enqueue (of a name neither queued nor current) preserves
the queue invariant. -/
lemma inv_enqueueSt (e : Env) (uv cok : Bool) (t : String) (s : GuildState)
    (h : Inv s) (hq : t ∉ s.queue) (hc : s.current_audio ≠ some t) :
    Inv (enqueueSt e uv cok t s) := by
  by_cases hx : e.ex t = false
  · simpa [enqueueSt, play, hx] using h
  · by_cases huv : uv = false
    · simpa [enqueueSt, play, hx, huv] using h
    · by_cases hcc : e.conn = false ∧ cok = false
      · simpa [enqueueSt, play, hx, huv, hcc] using h
      · have hnodup : (s.queue ++ [t]).Nodup := by
          simp [List.nodup_append, h.1, hq]
        by_cases hp : s.is_playing = false
        · have he : enqueueSt e uv cok t s =
              (play_next { e with conn := true } { s with queue := s.queue ++ [t] }).1 := by
            simp [enqueueSt, play, hx, huv, hcc, hp]
          rw [he]
          exact play_next_inv { e with conn := true } { s with queue := s.queue ++ [t] } hnodup
        · have he : enqueueSt e uv cok t s = { s with queue := s.queue ++ [t] } := by
            simp [enqueueSt, play, hx, huv, hcc, hp]
          rw [he]
          refine ⟨hnodup, fun c hcur => ?_⟩
          simp only [List.mem_append, List.mem_singleton]
          rintro (hin | rfl)
          · exact h.2 c hcur hin
          · exact hc hcur

/-- Every state reachable with fresh enqueues satisfies the queue
invariant. -/
lemma reachF_inv (s : GuildState) (h : ReachF s) : Inv s := by
  induction h with
  | init => exact ⟨List.nodup_nil, by simp [initState]⟩
  | enq e uv cok t s hs hq hc ih => exact inv_enqueueSt e uv cok t s ih hq hc
  | adv e s hs ih => exact inv_advanceSt e s ih

/-- C9 counterexample: enqueueing the same existing track name twice on
an idle connected guild (both steps allowed by the code, which never
deduplicates) reaches a state whose queue contains an entry equal to
the current track, contradicting the claimed invariant. -/
theorem C9_counterexample :
    Reach (enqueueSt envA true true "a.mp3" (enqueueSt envA true true "a.mp3" initState)) ∧
    (enqueueSt envA true true "a.mp3"
        (enqueueSt envA true true "a.mp3" initState)).current_audio = some "a.mp3" ∧
    "a.mp3" ∈ (enqueueSt envA true true "a.mp3"
        (enqueueSt envA true true "a.mp3" initState)).queue :=
  ⟨Reach.enq envA true true "a.mp3" (enqueueSt envA true true "a.mp3" initState)
      (Reach.enq envA true true "a.mp3" initState Reach.init),
   by decide, by decide⟩

/-- C9 amended: a track reference is removed from the queue at the
moment it becomes current, so as long as a name is never enqueued
while it is already queued or already current, every reachable state's
queue omits the current track (the unrestricted claim fails only
because the same name may be enqueued twice). -/
theorem C9_queue_omits_current_amended (s : GuildState) (h : ReachF s) (c : String)
    (hc : s.current_audio = some c) : c ∉ s.queue :=
  (reachF_inv s h).2 c hc

/-- C9 witness: after one fresh enqueue on the idle defaults the
current track is absent from the queue. -/
theorem C9_witness : "a.mp3" ∉ (enqueueSt envA true true "a.mp3" initState).queue :=
  C9_queue_omits_current_amended (enqueueSt envA true true "a.mp3" initState)
    (ReachF.enq envA true true "a.mp3" initState ReachF.init (by decide) (by decide))
    "a.mp3" (by decide)

/-- C10: loading a snapshot is total and never propagates an error —
when the file is absent, `load_json` writes the serialized default to
that path and returns the default; when the file exists but does not
parse, it returns the default with the file system untouched; in
particular a corrupt per-guild queue file makes `load_queue_for_guild`
return an empty queue, no voice info and no current track. -/
theorem C10_load_json_total {α : Type} (parse : String → Option α) (ser : α → String)
    (fs : FS) (path c : String) (d : α)
    (parseQ : String → Option QueueData) (serQ : QueueData → String) (gid : Int) :
    (fs path = none →
      load_json parse ser fs path d = (d, save_json fs path (ser d)) ∧
      save_json fs path (ser d) path = some (ser d)) ∧
    (fs path = some c → parse c = none →
      load_json parse ser fs path d = (d, fs)) ∧
    (fs (json_path_queue gid) = some c → parseQ c = none →
      load_queue_for_guild parseQ serQ fs gid = (([], none, none), fs)) := by
  refine ⟨fun h => ⟨?_, ?_⟩, fun h hp => ?_, fun h hp => ?_⟩
  · simp [load_json, h]
  · simp [save_json]
  · simp [load_json, h, hp]
  · simp [load_queue_for_guild, load_json, h, hp, emptyDict]

/-- C10 witness: an absent file yields the written default, and a
corrupt queue file yields the empty snapshot. -/
theorem C10_witness :
    load_json (fun _ => (none : Option QueueData)) (fun _ => "e") (fun _ => none)
        "data/queue_1.json" emptyDict =
      (emptyDict, save_json (fun _ => none) "data/queue_1.json" "e") ∧
    load_queue_for_guild (fun _ => none) (fun _ => "e") (fun _ => some "corrupt") 1 =
      (([], none, none), fun _ => some "corrupt") :=
  ⟨((C10_load_json_total (fun _ => (none : Option QueueData)) (fun _ => "e")
        (fun _ => none) "data/queue_1.json" "c" emptyDict
        (fun _ => none) (fun _ => "e") 1).1 rfl).1,
   (C10_load_json_total (fun _ => (none : Option QueueData)) (fun _ => "e")
        (fun _ => some "corrupt") "x" "corrupt" emptyDict
        (fun _ => none) (fun _ => "e") 1).2.2 rfl rfl⟩

end MusicBot
